import Mathlib

/-!
Verification development for the Projecteur device core
(`src/spotlight.cc`, `src/spotlight.h`).

The C++ source is shallowly embedded: each relevant member function of the
`Spotlight` class becomes an executable Lean definition operating on explicit
state, with operating-system effects (file opens, reads, signal emissions,
deferred timers) reified as oracles passed in and effect lists returned.
-/

namespace Projecteur

/-! ## Linux input constants (linux/input-event-codes.h) -/

def EV_SYN : Nat := 0x00
def EV_REL : Nat := 0x02
def REL_X : Nat := 0x00
def REL_Y : Nat := 0x01
def EAGAIN : Nat := 11

/-! ## Data model (spotlight.h) -/

/-- `input_event` as used by the demux handler: fields `type`, `code`, `value`
(the timestamp is never inspected by the embedded code). -/
structure InputEvent where
  type : Nat
  code : Nat
  value : Int
  deriving DecidableEq, Repr

/-- `Spotlight::DeviceId` (vendorId, productId, phys). -/
structure DeviceId where
  vendorId : Nat
  productId : Nat
  phys : String
  deriving DecidableEq, Repr

/-- The default-constructed `DeviceId()`: both ids 0, empty phys. -/
def DeviceId.default : DeviceId := ⟨0, 0, ""⟩

/-- `Spotlight::SupportedDevice`. -/
structure SupportedDevice where
  vendorId : Nat
  productId : Nat
  isBluetooth : Bool
  name : String
  deriving DecidableEq, Repr

/-- `Spotlight::SubDeviceType`. -/
inductive SubDeviceType where
  | Event
  | Hidraw
  deriving DecidableEq, Repr

/-- The observable state of a `Spotlight::SubDeviceConnection`: whether the
`QSocketNotifier` exists and is enabled (`notifier && notifier->isEnabled()`)
and whether `fd` is nonzero.  The input buffer and the shared input mapper
are modelled in the demux state below. -/
structure ConnState where
  notifierEnabled : Bool
  fd : Nat
  deriving DecidableEq, Repr

/-- `Spotlight::SubDevice`. -/
structure SubDevice where
  DeviceFile : String
  phys : String
  type : SubDeviceType
  connection : Option ConnState
  hasRelativeEvents : Bool
  DeviceReadable : Bool
  DeviceWritable : Bool
  deriving DecidableEq, Repr

/-- `Spotlight::Device::BusType`. -/
inductive BusType where
  | Unknown
  | Usb
  | Bluetooth
  deriving DecidableEq, Repr

/-- `Spotlight::Device` (the shared `eventIM` input-mapper pointer carries no
state relevant to the embedded claims and is omitted). -/
structure Device where
  name : String
  userName : String
  id : DeviceId
  busType : BusType
  subDevices : List SubDevice
  hidrwNode : Nat
  deriving DecidableEq, Repr

/-- `Spotlight::ScanResult`. -/
structure ScanResult where
  devices : List Device
  numDevicesReadable : Nat
  numDevicesWritable : Nat
  errorMessages : List String
  deriving DecidableEq, Repr

/-! ## vibrateDevice / sendDatatoDevice (spotlight.cc lines 797-816) -/

/-- The payload constructed by `Spotlight::vibrateDevice`:
`strength = (strength < 64) ? 64 : strength;`
`uint8_t vibration_data[] = {0x10, 0x01, 0x09, 0x11, 0x03, 0xe8, strength};` -/
def vibrationData (strength : Nat) : List Nat :=
  let s := if strength < 64 then 64 else strength
  [0x10, 0x01, 0x09, 0x11, 0x03, 0xe8, s]

/-- Effect of `Spotlight::sendDatatoDevice`: either nothing is written, or the
given byte list is written to the hidraw descriptor. -/
inductive SendEffect where
  | wrote (data : List Nat)
  deriving DecidableEq, Repr

/-- `Spotlight::sendDatatoDevice` (`if (m_device->hidrwNode)` is the nonzero
test on the stored descriptor).  `m_device` is modelled as an `Option`;
`writeResult` is the oracle for the `::write` return value. -/
def sendDatatoDevice (m_device : Option Device) (writeResult : Int)
    (data : List Nat) : Int × List SendEffect :=
  match m_device with
  | none => (-1, [])
  | some dev =>
    if dev.hidrwNode ≠ 0 then (writeResult, [SendEffect.wrote data])
    else (-1, [])

/-- `Spotlight::vibrateDevice`. -/
def vibrateDevice (m_device : Option Device) (writeResult : Int)
    (strength : Nat) : Int × List SendEffect :=
  sendDatatoDevice m_device writeResult (vibrationData strength)

/-! ## Event demultiplexing: `Spotlight::onEventSubDeviceDataAvailable`
(spotlight.cc lines 492-548) -/

/-- Outcome of one `::read(fd, &ev, sizeof(ev))` call: a full record, or a
short/failed read with the indicated `errno`. -/
inductive ReadResult where
  | ok (ev : InputEvent)
  | err (errno : Nat)
  deriving DecidableEq, Repr

/-- Observable effects of the demux handler, in program order. -/
inductive DemuxEffect where
  /-- `connection.notifier->setEnabled(false)` -/
  | notifierDisabled
  /-- `emit anySpotlightDeviceConnectedChanged(false)` -/
  | presenceChangedFalse
  /-- `QTimer::singleShot(0, ..., removeSubDeviceConnection(devicePath))` -/
  | deferredRemove (devicePath : String)
  /-- `emit spotActiveChanged(b)` -/
  | spotActiveChanged (b : Bool)
  /-- `m_virtualDevice->emitEvents(buf.data(), buf.pos())` -/
  | emitVirtual (frame : List InputEvent)
  /-- `connection.im->addEvents(buf.data(), buf.pos())` -/
  | addEvents (frame : List InputEvent)
  /-- `connection.im->resetState()` -/
  | resetState
  deriving DecidableEq, Repr

/-- Ambient configuration of one demux invocation: the `NonBlocking` device
flag, whether `m_virtualDevice` exists, `connection.im->recordingMode()`,
the value of `anySpotlightDeviceConnected()` (i.e. whether `m_device` is set),
and `dev.DeviceFile`. -/
structure DemuxCfg where
  isNonBlocking : Bool
  hasVirtual : Bool
  recordingMode : Bool
  deviceConnected : Bool
  devicePath : String
  deriving DecidableEq, Repr

/-- Mutable state touched by the demux handler: the connection's
`InputBuffer<12>` (`bufData` of fixed length together with write position
`pos_`), the notifier-enabled flag, `m_spotActive`, whether `m_activeTimer`
is running, and an `oob` flag recording that `data_.at(pos_)` was evaluated
with `pos_` out of range (which in C++ throws `std::out_of_range`). -/
structure DemuxState where
  bufData : List InputEvent
  bufPos : Nat
  notifierEnabled : Bool
  spotActive : Bool
  activeTimerActive : Bool
  oob : Bool
  deriving DecidableEq, Repr

/-- Frame classification at an `EV_SYN` record:
`first_ev.type == EV_REL && (first_ev.code == REL_X || first_ev.code == REL_Y)`
where `first_ev = buf[0]`. -/
def isMotionFrame (frame : List InputEvent) : Bool :=
  match frame with
  | [] => false
  | e :: _ => e.type == EV_REL && (e.code == REL_X || e.code == REL_Y)

/-- The `if (ev.type == EV_SYN)` branch body: classify the completed frame,
drive the spot-active timer for motion frames, forward the frame, and reset
the buffer position. -/
def handleFrame (cfg : DemuxCfg) (st : DemuxState) (frame : List InputEvent) :
    DemuxState × List DemuxEffect :=
  if isMotionFrame frame then
    let st1 :=
      if cfg.recordingMode then st
      else { (if st.activeTimerActive then st else { st with spotActive := true }) with
             activeTimerActive := true }
    let effs1 : List DemuxEffect :=
      if cfg.recordingMode then []
      else if st.activeTimerActive then [] else [DemuxEffect.spotActiveChanged true]
    let effs3 := if cfg.hasVirtual then [DemuxEffect.emitVirtual frame] else []
    ({ st1 with bufPos := 0 }, effs1 ++ effs3)
  else
    ({ st with bufPos := 0 }, [DemuxEffect.addEvents frame])

/-- One loop iteration of the demux handler after a successful read of `ev`:
write into `buf.current()` (i.e. `data_.at(pos_)`, recording an `oob` if
`pos_` is out of range), `++buf`, then the `EV_SYN` / overflow handling. -/
def demuxIter (cfg : DemuxCfg) (st : DemuxState) (ev : InputEvent) :
    DemuxState × List DemuxEffect :=
  let st0 := if st.bufPos < st.bufData.length then st else { st with oob := true }
  let data1 := st0.bufData.set st0.bufPos ev
  let pos1 := st0.bufPos + 1
  let st1 := { st0 with bufData := data1, bufPos := pos1 }
  if ev.type == EV_SYN then
    handleFrame cfg st1 (data1.take pos1)
  else if data1.length ≤ pos1 then
    ({ st1 with bufPos := 0 }, [DemuxEffect.resetState])
  else (st1, [])

/-- `Spotlight::onEventSubDeviceDataAvailable`: the `while (true)` read loop.
The successive outcomes of `::read` are supplied as a list; an exhausted list
behaves like `EAGAIN` (no more data, clean loop exit). -/
def demuxRun (cfg : DemuxCfg) : List ReadResult → DemuxState → DemuxState × List DemuxEffect
  | [], st => (st, [])
  | ReadResult.err e :: _, st =>
    if e = EAGAIN then (st, [])
    else
      ({ st with notifierEnabled := false },
        [DemuxEffect.notifierDisabled]
          ++ (if cfg.deviceConnected then [] else [DemuxEffect.presenceChangedFalse])
          ++ [DemuxEffect.deferredRemove cfg.devicePath])
  | ReadResult.ok ev :: rest, st =>
    let r := demuxIter cfg st ev
    if cfg.isNonBlocking then
      let r2 := demuxRun cfg rest r.1
      (r2.1, r.2 ++ r2.2)
    else r

/-! ## Connecting a device: `Spotlight::connectDevice`,
`Spotlight::connectSubDevices`, `Spotlight::ConnectEventSubDevices`,
`Spotlight::ConnectHidrawSubDevices` (spotlight.cc lines 235-361) -/

/-- Observable effects of the connect path, in program order. -/
inductive ConnectEffect where
  /-- `openEventSubDeviceConnection` was invoked (an `::open` on this path) -/
  | openedEvent (path : String)
  /-- `openHidrawSubDeviceConnection` was invoked (an `::open` on this path) -/
  | openedHidraw (path : String)
  /-- `emit subDeviceConnected(id, name, path)` -/
  | subDeviceConnected (path : String)
  /-- `emit deviceConnected(id, name)` -/
  | deviceConnected (id : DeviceId) (name : String)
  /-- `emit anySpotlightDeviceConnectedChanged(true)` -/
  | presenceChangedTrue
  deriving DecidableEq, Repr

/-- `subdev.connection && subdev.connection->notifier &&
subdev.connection->notifier->isEnabled()`. -/
def connActive : Option ConnState → Bool
  | some c => c.notifierEnabled
  | none => false

/-- `Spotlight::ConnectEventSubDevices`.  `openEvent` is the oracle for
`openEventSubDeviceConnection`: a returned `ConnState` with
`notifierEnabled = false` models the connection object produced on an open
failure (no notifier).  Returns the updated sub-device list, the count of
connected event sub-devices, and the effects. -/
def connectEventSubDevices (openEvent : String → ConnState) :
    List SubDevice → List SubDevice × Nat × List ConnectEffect
  | [] => ([], 0, [])
  | s :: rest =>
    let r := connectEventSubDevices openEvent rest
    if s.type = SubDeviceType.Event ∧ s.DeviceReadable = true ∧ 0 < s.DeviceFile.length then
      if connActive s.connection then
        -- connection for the path exists and is enabled: count it, do not reopen
        (s :: r.1, r.2.1 + 1, r.2.2)
      else
        let c := openEvent s.DeviceFile
        if c.notifierEnabled then
          ({ s with connection := some c } :: r.1, r.2.1 + 1,
            ConnectEffect.openedEvent s.DeviceFile
              :: ConnectEffect.subDeviceConnected s.DeviceFile :: r.2.2)
        else
          ({ s with connection := some c } :: r.1, r.2.1,
            ConnectEffect.openedEvent s.DeviceFile :: r.2.2)
    else
      (s :: r.1, r.2.1, r.2.2)

/-- `Spotlight::ConnectHidrawSubDevices`.  Every qualifying hidraw sub-device
is reopened unconditionally; the loop breaks after the first success
("Only one readwrite hidraw device is enough") recording `m_device->hidrwNode`.
Returns the updated list, the count, the recorded hidraw fd (if any) and the
effects. -/
def connectHidrawSubDevices (openHidraw : String → ConnState) :
    List SubDevice → List SubDevice × Nat × Option Nat × List ConnectEffect
  | [] => ([], 0, none, [])
  | s :: rest =>
    if s.type = SubDeviceType.Hidraw ∧ s.DeviceWritable = true ∧ s.DeviceReadable = true
        ∧ 0 < s.DeviceFile.length then
      let c := openHidraw s.DeviceFile
      if c.notifierEnabled ∧ c.fd ≠ 0 then
        ({ s with connection := some c } :: rest, 1, some c.fd,
          [ConnectEffect.openedHidraw s.DeviceFile])
      else
        let r := connectHidrawSubDevices openHidraw rest
        ({ s with connection := some c } :: r.1, r.2.1, r.2.2.1,
          ConnectEffect.openedHidraw s.DeviceFile :: r.2.2.2)
    else
      let r := connectHidrawSubDevices openHidraw rest
      (s :: r.1, r.2.1, r.2.2.1, r.2.2.2)

/-- `Spotlight::connectSubDevices`: requires `m_device` with a nonempty
sub-device list, connects event sub-devices then hidraw sub-devices, and
returns a positive total only when both counts are positive
("Ensures that at least one Event and Hidraw SubDevice are opened"). -/
def connectSubDevices (openEvent openHidraw : String → ConnState) :
    Option Device → Option Device × Int × List ConnectEffect
  | none => (none, -1, [])
  | some dev =>
    if dev.subDevices.length = 0 then (some dev, -1, [])
    else
      let rE := connectEventSubDevices openEvent dev.subDevices
      let rH := connectHidrawSubDevices openHidraw rE.1
      let dev2 : Device :=
        { dev with subDevices := rH.1, hidrwNode := rH.2.2.1.getD dev.hidrwNode }
      if 0 < rE.2.1 ∧ 0 < rH.2.1 then
        (some dev2, ((rE.2.1 : Int) + (rH.2.1 : Int)), rE.2.2 ++ rH.2.2.2)
      else (some dev2, 0, rE.2.2 ++ rH.2.2.2)

/-- The `for (auto dev : scanResult.devices) if (dev.id == id) ...` search in
`connectDevice`. -/
def findMatching (id : DeviceId) : List Device → Option Device
  | [] => none
  | d :: rest => if d.id = id then some d else findMatching id rest

/-- The device-selection logic of `connectDevice`: with a nonzero preferred id
the first scanned device with that id replaces `m_device` (a fresh copy from
the scan); otherwise, and when the preferred id is absent from the scan, a
previously stored `m_device` is kept; if `m_device` is still null, the first
scanned device is taken. -/
def selectDevice (scanDevices : List Device) (id : DeviceId)
    (m_device : Option Device) : Option Device :=
  let afterIdMatch :=
    if id.vendorId ≠ 0 ∧ id.productId ≠ 0 then
      match findMatching id scanDevices with
      | some d => some d
      | none => m_device
    else m_device
  match afterIdMatch with
  | some d => some d
  | none => scanDevices.head?

/-- Whether an effect list contains a `deviceConnected` emission. -/
def declaresConnection (effs : List ConnectEffect) : Bool :=
  effs.any fun e =>
    match e with
    | ConnectEffect.deviceConnected _ _ => true
    | _ => false

/-- `Spotlight::connectDevice` (first half runs `scanForDevices`; the scan
outcome is passed in as `scanDevices`).  Returns the new `m_device`, the
`int` result and the emitted effects. -/
def connectDevice (openEvent openHidraw : String → ConnState)
    (scanDevices : List Device) (id : DeviceId) (m_device : Option Device) :
    Option Device × Int × List ConnectEffect :=
  let anyConnectedBefore := m_device.isSome
  match scanDevices with
  | [] => (m_device, -1, [])
  | _ :: _ =>
    let sel := selectDevice scanDevices id m_device
    -- m_device->eventIM = std::make_shared<InputMapper>(...) : no observable state here
    let r := connectSubDevices openEvent openHidraw sel
    if 0 < r.2.1 then
      let connEffs :=
        match r.1 with
        | some d => [ConnectEffect.deviceConnected d.id d.name]
        | none => []
      let presEffs := if anyConnectedBefore then [] else [ConnectEffect.presenceChangedTrue]
      (r.1, 0, r.2.2 ++ connEffs ++ presEffs)
    else (r.1, 0, r.2.2)

/-! ## `Spotlight::removeSubDeviceConnection` (spotlight.cc lines 477-488) -/

/-- The `while (it != m_device->subDevices.end())` loop of
`removeSubDeviceConnection`, with `it` at the front of the unvisited part of
the list.  The loop body contains no `++it`: a non-matching element leaves the
iterator (and the list) unchanged, so the recursive call receives the same
list again.  `fuel` bounds the number of iterations modelled; `none` means the
loop was still running when the fuel ran out. -/
def removeSubLoop (file : String) : Nat → List SubDevice → Option (List SubDevice)
  | _, [] => some []
  | 0, _ :: _ => none
  | fuel + 1, s :: rest =>
    if s.DeviceFile = file then some rest
    else removeSubLoop file fuel (s :: rest)

/-- `Spotlight::removeSubDeviceConnection`: early return when `m_device` is
null or its sub-device list is empty, otherwise the erase loop.  The outer
`Option` is `none` when the loop did not terminate within `fuel` steps. -/
def removeSubDeviceConnection (fuel : Nat) (m_device : Option Device)
    (file : String) : Option (Option Device) :=
  match m_device with
  | none => some none
  | some dev =>
    if dev.subDevices.length = 0 then some (some dev)
    else
      match removeSubLoop file fuel dev.subDevices with
      | some subs => some (some { dev with subDevices := subs })
      | none => none

/-! ## Device scanning: `Spotlight::scanForDevices` and its helpers
(spotlight.cc lines 27-75, 127-175, 651-794)

The sysfs tree walked by the scanner is supplied as a fixture.  Each file
read (`deviceFromUEventFile`, `readUShortFromDeviceFile`,
`readULongLongFromDeviceFile`, `readStringFromDeviceFile`,
`readPropertyFromDeviceFile`) is represented by the value it yields on the
fixture.  The generated functions `isExtraDeviceSupported` and
`getExtraDeviceName` (defined outside this repository in generated source)
are oracles. -/

/-- The parse result of `deviceFromUEventFile` for one HID directory:
`HID_ID` yields bus type, vendor id and product id; `HID_NAME` the name;
`HID_PHYS` (up to the first slash) the phys. -/
structure UEventInfo where
  vendorId : Nat
  productId : Nat
  phys : String
  name : String
  busType : BusType
  deriving DecidableEq, Repr

/-- The `Spotlight::Device` value built by `deviceFromUEventFile`
(sub-device list empty, user name empty, no hidraw node yet). -/
def deviceOfUEvent (u : UEventInfo) : Device :=
  { name := u.name, userName := "", id := ⟨u.vendorId, u.productId, u.phys⟩,
    busType := u.busType, subDevices := [], hidrwNode := 0 }

/-- One sub-directory seen by the inner `QDirIterator` loops together with
the `DEVNAME` property of its `uevent` file ("" when absent or empty). -/
structure NodeDir where
  dirName : String
  devName : String
  deriving DecidableEq, Repr

/-- One `input/inputNN` directory: the values of its `id/vendor` and
`id/product` files, its `event*` candidate sub-directories, the contents of
its `phys` file, its `capabilities/ev` and `capabilities/rel` bitmasks, and
the readable/writable bits of the resolved `/dev` node. -/
structure InputNode where
  idVendor : Nat
  idProduct : Nat
  eventDirs : List NodeDir
  phys : String
  capEv : Nat
  capRel : Nat
  readable : Bool
  writable : Bool
  deriving DecidableEq, Repr

/-- One `hidraw/hidrawNN` directory with the readable/writable bits of its
resolved `/dev` node. -/
structure HidrawDir where
  dirName : String
  devName : String
  readable : Bool
  writable : Bool
  deriving DecidableEq, Repr

/-- One top-level directory under `/sys/bus/hid/devices`: whether its
`uevent` file exists, the parsed uevent contents, and the optional `input`
and `hidraw` sub-trees. -/
structure HidEntry where
  hasUEvent : Bool
  uevent : UEventInfo
  inputSubdir : Option (List InputNode)
  hidrawSubdir : Option (List HidrawDir)
  deriving DecidableEq, Repr

/-- The device-tree fixture for one scan: existence and listability of the
root `/sys/bus/hid/devices` plus its entries in iteration order. -/
structure ScanFixture where
  rootExists : Bool
  rootListable : Bool
  entries : List HidEntry
  deriving DecidableEq, Repr

/-- The compiled-in `supportedDefaultDevices` array. -/
def supportedDefaultDevices : List SupportedDevice :=
  [⟨0x46d, 0xc53e, false, "Logitech Spotlight (USB)"⟩,
   ⟨0x46d, 0xb503, true, "Logitech Spotlight (Bluetooth)"⟩]

/-- The `std::find_if` over a supported-device list by vendor and product id. -/
def findSupported (v p : Nat) : List SupportedDevice → Option SupportedDevice
  | [] => none
  | d :: rest => if v = d.vendorId ∧ p = d.productId then some d else findSupported v p rest

/-- `isDeviceSupported` (anonymous namespace): found in the default list, or
accepted by the generated `isExtraDeviceSupported` (oracle `isExtra`). -/
def isDeviceSupported (isExtra : Nat → Nat → Bool) (v p : Nat) : Bool :=
  (findSupported v p supportedDefaultDevices).isSome || isExtra v p

/-- `isAdditionallySupported` (anonymous namespace). -/
def isAdditionallySupported (v p : Nat) (devices : List SupportedDevice) : Bool :=
  (findSupported v p devices).isSome

/-- `getUserDeviceName` (anonymous namespace): default-list name if present
and nonempty, else the generated extra name (oracle `extraName`) if nonempty,
else the additional-list name if present and nonempty, else "". -/
def getUserDeviceName (extraName : Nat → Nat → String) (v p : Nat)
    (additional : List SupportedDevice) : String :=
  let fallback :=
    let en := extraName v p
    if 0 < en.length then en
    else
      match findSupported v p additional with
      | some a => if 0 < a.name.length then a.name else ""
      | none => ""
  match findSupported v p supportedDefaultDevices with
  | some d => if 0 < d.name.length then d.name else fallback
  | none => fallback

/-- The innermost `QDirIterator dirIt` loop: the first `event*` directory
whose `uevent` has a nonempty `DEVNAME` resolves the device file under
`/dev`; otherwise the device file stays empty. -/
def findDevFile : List NodeDir → String
  | [] => ""
  | n :: rest =>
    if ¬ n.dirName.startsWith "event" then findDevFile rest
    else if 0 < n.devName.length then "/dev/" ++ n.devName
    else findDevFile rest

/-- The `input` sub-tree iteration: a vendor/product mismatch breaks the
loop; nodes without a resolvable device file are skipped; otherwise an
event-class `SubDevice` is built with `hasRelativeEvents` from the
capability bitmasks. -/
def eventSubDevicesFrom (rootId : DeviceId) : List InputNode → List SubDevice
  | [] => []
  | n :: rest =>
    if n.idVendor ≠ rootId.vendorId ∨ n.idProduct ≠ rootId.productId then []
    else
      let devFile := findDevFile n.eventDirs
      if devFile.length = 0 then eventSubDevicesFrom rootId rest
      else
        { DeviceFile := devFile, phys := n.phys, type := SubDeviceType.Event,
          connection := none,
          hasRelativeEvents :=
            (n.capEv &&& (1 <<< EV_REL)) != 0
              && ((n.capRel &&& (1 <<< REL_X)) != 0)
              && ((n.capRel &&& (1 <<< REL_Y)) != 0),
          DeviceReadable := n.readable,
          DeviceWritable := n.writable } :: eventSubDevicesFrom rootId rest

/-- The `hidraw` sub-tree iteration (taken only when no `input` sub-tree
exists): every `hidraw*` directory with a nonempty `DEVNAME` becomes a
raw-report `SubDevice`. -/
def hidrawSubDevicesFrom : List HidrawDir → List SubDevice
  | [] => []
  | n :: rest =>
    if ¬ n.dirName.startsWith "hidraw" then hidrawSubDevicesFrom rest
    else if n.devName.length = 0 then hidrawSubDevicesFrom rest
    else
      { DeviceFile := "/dev/" ++ n.devName, phys := "", type := SubDeviceType.Hidraw,
        connection := none, hasRelativeEvents := false,
        DeviceReadable := n.readable, DeviceWritable := n.writable }
        :: hidrawSubDevicesFrom rest

/-- The sub-device nodes contributed by one HID entry to its root device. -/
def entrySubDevices (rootId : DeviceId) (e : HidEntry) : List SubDevice :=
  match e.inputSubdir with
  | some nodes => eventSubDevicesFrom rootId nodes
  | none =>
    match e.hidrawSubdir with
    | some dirs => hidrawSubDevicesFrom dirs
    | none => []

/-- The `std::find_if` over already-collected devices by DeviceId. -/
def containsId (id : DeviceId) : List Device → Bool
  | [] => false
  | d :: rest => decide (d.id = id) || containsId id rest

/-- Appending freshly found sub-device nodes to the existing entry with the
given id (`return *find_it;` branch of the `rootDevice` selection). -/
def appendToExisting (id : DeviceId) (newSubs : List SubDevice) :
    List Device → List Device
  | [] => []
  | d :: rest =>
    if d.id = id then { d with subDevices := d.subDevices ++ newSubs } :: rest
    else d :: appendToExisting id newSubs rest

/-- The body of the `while (hidIt.hasNext())` loop of `scanForDevices` for
one HID directory: skip entries without a uevent file, with a zero vendor or
product id, or outside every supported-device list; otherwise group by
DeviceId (append to the existing entry, or push a new root device with its
user name resolved). -/
def processEntry (isExtra : Nat → Nat → Bool) (extraName : Nat → Nat → String)
    (additional : List SupportedDevice) (devices : List Device) (e : HidEntry) :
    List Device :=
  if ¬ e.hasUEvent then devices
  else
    let nd := deviceOfUEvent e.uevent
    if nd.id.vendorId = 0 ∨ nd.id.productId = 0 then devices
    else if ¬ (isDeviceSupported isExtra nd.id.vendorId nd.id.productId = true
        ∨ isAdditionallySupported nd.id.vendorId nd.id.productId additional = true) then
      devices
    else
      let subs := entrySubDevices nd.id e
      if containsId nd.id devices then appendToExisting nd.id subs devices
      else
        devices ++ [{ nd with
          userName := getUserDeviceName extraName nd.id.vendorId nd.id.productId additional,
          subDevices := subs }]

/-- Folding `processEntry` over the HID directories in iteration order. -/
def scanEntries (isExtra : Nat → Nat → Bool) (extraName : Nat → Nat → String)
    (additional : List SupportedDevice) :
    List HidEntry → List Device → List Device
  | [], devices => devices
  | e :: rest, devices =>
    scanEntries isExtra extraName additional rest
      (processEntry isExtra extraName additional devices e)

/-- Error text for a missing device-tree root (Qt quoting of the path
elided). -/
def rootMissingMsg : String :=
  "HID device path /sys/bus/hid/devices does not exist."

/-- Error text for an unlistable device-tree root (Qt quoting of the path
elided). -/
def rootNotListableMsg : String :=
  "HID device path /sys/bus/hid/devices: Cannot list files."

/-- `std::all_of(...)` readable check of the post-scan loop. -/
def allSubsReadable (subs : List SubDevice) : Bool :=
  subs.all fun s => s.DeviceFile.length = 0 || s.DeviceReadable

/-- `std::all_of(...)` writable check of the post-scan loop. -/
def allSubsWritable (subs : List SubDevice) : Bool :=
  subs.all fun s => s.DeviceFile.length = 0 || s.DeviceWritable

/-- `Spotlight::scanForDevices`. -/
def scanForDevices (isExtra : Nat → Nat → Bool) (extraName : Nat → Nat → String)
    (additional : List SupportedDevice) (fx : ScanFixture) : ScanResult :=
  if ¬ fx.rootExists then
    { devices := [], numDevicesReadable := 0, numDevicesWritable := 0,
      errorMessages := [rootMissingMsg] }
  else if ¬ fx.rootListable then
    { devices := [], numDevicesReadable := 0, numDevicesWritable := 0,
      errorMessages := [rootNotListableMsg] }
  else
    let devices := scanEntries isExtra extraName additional fx.entries []
    { devices := devices,
      numDevicesReadable := (devices.filter fun d => allSubsReadable d.subDevices).length,
      numDevicesWritable := (devices.filter fun d => allSubsWritable d.subDevices).length,
      errorMessages := [] }

/-! ## Concrete fixtures used by witnesses and counterexamples -/

/-- A zeroed 12-slot input buffer (`std::array<input_event, 12>`). -/
def demuxBuf0 : List InputEvent := List.replicate 12 ⟨0, 0, 0⟩

/-- Initial demux state: empty buffer position, enabled notifier. -/
def demuxSt0 : DemuxState := ⟨demuxBuf0, 0, true, false, false, false⟩

/-- Demux state with the buffer one record short of full. -/
def demuxStFull : DemuxState := ⟨demuxBuf0, 11, true, false, false, false⟩

/-- Demux configuration of a connected, non-blocking event sub-device with a
virtual device present and recording off. -/
def demuxCfgC : DemuxCfg := ⟨true, true, false, true, "/dev/input/event0"⟩

/-- A completed motion frame: `REL_X` motion record then the `EV_SYN`
marker. -/
def c4MotionFrame : List InputEvent := [⟨EV_REL, REL_X, 3⟩, ⟨EV_SYN, 0, 0⟩]

/-- A completed key frame: an `EV_KEY` record then the `EV_SYN` marker. -/
def c4KeyFrame : List InputEvent := [⟨1, 30, 1⟩, ⟨EV_SYN, 0, 0⟩]

/-- Reads delivering the key frame. -/
def c4Reads : List ReadResult :=
  [ReadResult.ok ⟨1, 30, 1⟩, ReadResult.ok ⟨EV_SYN, 0, 0⟩]

/-- Thirteen key records and no `EV_SYN`: one more record than the buffer
holds. -/
def c5Reads : List ReadResult := List.replicate 13 (ReadResult.ok ⟨1, 30, 1⟩)

/-- An open oracle that always succeeds (enabled notifier, fd 3). -/
def c1Oracle : String → ConnState := fun _ => ⟨true, 3⟩

/-- A readable event sub-device node with no connection yet. -/
def c1Sub : SubDevice :=
  ⟨"/dev/input/event1", "usb-1/input0", SubDeviceType.Event, none, true, true, false⟩

/-- A scanned device exposing only the event sub-device (no hidraw node). -/
def c1Dev : Device :=
  ⟨"Spotlight", "", ⟨0x46d, 0xc53e, "usb-1"⟩, BusType.Usb, [c1Sub], 0⟩

/-- The DeviceId of the connected device in the reconnect scenario. -/
def c3Id : DeviceId := ⟨0x46d, 0xc53e, "usb-1"⟩

/-- The event sub-device node as produced by a scan (no connection). -/
def c3SubE : SubDevice :=
  ⟨"/dev/input/event1", "usb-1/input0", SubDeviceType.Event, none, true, true, false⟩

/-- The hidraw sub-device node as produced by a scan (no connection). -/
def c3SubH : SubDevice :=
  ⟨"/dev/hidraw0", "", SubDeviceType.Hidraw, none, false, true, true⟩

/-- The freshly scanned copy of the device (connections all null). -/
def c3ScanDev : Device := ⟨"Spotlight", "", c3Id, BusType.Usb, [c3SubE, c3SubH], 0⟩

/-- The currently connected device: same id, event connection live. -/
def c3Old : Device :=
  ⟨"Spotlight", "", c3Id, BusType.Usb,
    [{ c3SubE with connection := some ⟨true, 5⟩ }, c3SubH], 7⟩

/-- A connected device state for the removal loop: one event sub-device. -/
def c9Dev : Device :=
  ⟨"Spotlight", "", ⟨0x46d, 0xc53e, "usb-1"⟩, BusType.Usb,
    [⟨"/dev/input/event1", "usb-1/input0", SubDeviceType.Event, none, true, true, false⟩], 0⟩

/-- A connected device with an open hidraw write handle. -/
def c6Dev : Device :=
  ⟨"Spotlight", "", ⟨0x46d, 0xc53e, "usb-1"⟩, BusType.Usb, [], 7⟩

/-- uevent contents of a supported device directory. -/
def sUEvent : UEventInfo := ⟨0x46d, 0xc53e, "usb-1", "SpotlightHID", BusType.Usb⟩

/-- An input node with matching ids, a resolvable event node, and relative
x/y capability bits set. -/
def sInputNode : InputNode :=
  ⟨0x46d, 0xc53e, [⟨"event3", "input/event3"⟩], "usb-1/input0", 0x17, 0x3, true, false⟩

/-- A HID directory exposing the input interface of the device. -/
def sEntryInput : HidEntry := ⟨true, sUEvent, some [sInputNode], none⟩

/-- A second HID directory for the same DeviceId exposing only hidraw. -/
def sEntryHidraw : HidEntry := ⟨true, sUEvent, none, some [⟨"hidraw0", "hidraw0", true, true⟩]⟩

/-- Fixture in which two kernel interface directories share one DeviceId. -/
def sFixture : ScanFixture := ⟨true, true, [sEntryInput, sEntryHidraw]⟩

/-- A HID directory whose uevent file is missing (read error during scan). -/
def sBadEntry : HidEntry := ⟨false, sUEvent, none, none⟩

/-- A device list already containing the DeviceId of `sEntryHidraw`. -/
def sDevices : List Device :=
  [⟨"SpotlightHID", "Logitech Spotlight (USB)", ⟨0x46d, 0xc53e, "usb-1"⟩, BusType.Usb, [], 0⟩]

/-- Minimal fixture with a single supported entry and no sub-trees. -/
def c10Fx : ScanFixture := ⟨true, true, [⟨true, sUEvent, none, none⟩]⟩

/-- The device `c10Fx` scans to. -/
def c10Dev : Device :=
  ⟨"SpotlightHID", "Logitech Spotlight (USB)", ⟨0x46d, 0xc53e, "usb-1"⟩, BusType.Usb, [], 0⟩

/-! # Helper lemmas -/

/-- The erase loop of `removeSubDeviceConnection` never terminates when the
first sub-device does not match: the iterator is never advanced. -/
theorem removeSubLoop_head_ne (file : String) (s : SubDevice) (rest : List SubDevice)
    (h : s.DeviceFile ≠ file) : ∀ fuel, removeSubLoop file fuel (s :: rest) = none := by
  intro fuel
  induction fuel with
  | zero => rfl
  | succ n ih =>
    simp only [removeSubLoop]
    rw [if_neg h]
    exact ih

/-- Effects of the frame handler on a motion frame. -/
theorem handleFrame_effects_motion {cfg : DemuxCfg} {st : DemuxState}
    {frame : List InputEvent} (h : isMotionFrame frame = true) :
    (handleFrame cfg st frame).2
      = (if cfg.recordingMode then []
          else if st.activeTimerActive then [] else [DemuxEffect.spotActiveChanged true])
        ++ (if cfg.hasVirtual then [DemuxEffect.emitVirtual frame] else []) := by
  simp [handleFrame, h]

/-- Effects of the frame handler on a non-motion frame. -/
theorem handleFrame_effects_nonmotion {cfg : DemuxCfg} {st : DemuxState}
    {frame : List InputEvent} (h : isMotionFrame frame = false) :
    (handleFrame cfg st frame).2 = [DemuxEffect.addEvents frame] := by
  simp [handleFrame, h]

/-- The frame handler never forwards a motion frame to `addEvents`. -/
theorem addEvents_not_mem_handleFrame_motion {cfg : DemuxCfg} {st : DemuxState}
    {frame : List InputEvent} {f : List InputEvent} (h : isMotionFrame frame = true) :
    DemuxEffect.addEvents f ∉ (handleFrame cfg st frame).2 := by
  rw [handleFrame_effects_motion h]
  intro hmem
  rcases List.mem_append.mp hmem with h1 | h1 <;> split_ifs at h1 <;> simp_all

/-- Any frame forwarded to `addEvents` by the frame handler is non-motion. -/
theorem addEvents_mem_handleFrame {cfg : DemuxCfg} {st : DemuxState}
    {frame : List InputEvent} {f : List InputEvent}
    (hmem : DemuxEffect.addEvents f ∈ (handleFrame cfg st frame).2) :
    isMotionFrame f = false := by
  by_cases h : isMotionFrame frame
  · exact absurd hmem (addEvents_not_mem_handleFrame_motion h)
  · have h0 : isMotionFrame frame = false := by simpa using h
    rw [handleFrame_effects_nonmotion h0] at hmem
    have : f = frame := by simpa using hmem
    rw [this]; exact h0

/-- Any frame forwarded to `addEvents` within one demux iteration is
non-motion. -/
theorem addEvents_mem_demuxIter {cfg : DemuxCfg} {st : DemuxState}
    {ev : InputEvent} {f : List InputEvent}
    (hmem : DemuxEffect.addEvents f ∈ (demuxIter cfg st ev).2) :
    isMotionFrame f = false := by
  simp only [demuxIter] at hmem
  split at hmem
  · exact addEvents_mem_handleFrame hmem
  · split at hmem <;> split at hmem <;> simp_all

/-- Any frame forwarded to `addEvents` within a full demux run is
non-motion. -/
theorem addEvents_mem_demuxRun {cfg : DemuxCfg} : ∀ (reads : List ReadResult)
    (st : DemuxState) (f : List InputEvent),
    DemuxEffect.addEvents f ∈ (demuxRun cfg reads st).2 → isMotionFrame f = false := by
  intro reads
  induction reads with
  | nil => intro st f h; simp [demuxRun] at h
  | cons r rest ih =>
    intro st f h
    cases r with
    | err e =>
      simp only [demuxRun] at h
      split at h
      · simp at h
      · rcases List.mem_append.mp h with h1 | h1
        · rcases List.mem_append.mp h1 with h2 | h2
          · simp at h2
          · split at h2 <;> simp at h2
        · simp at h1
    | ok ev =>
      simp only [demuxRun] at h
      split at h
      · rcases List.mem_append.mp h with h1 | h1
        · exact addEvents_mem_demuxIter h1
        · exact ih _ _ h1
      · exact addEvents_mem_demuxIter h

/-- The frame-handler result state: position reset, buffer contents and oob
flag untouched. -/
theorem handleFrame_state {cfg : DemuxCfg} {st : DemuxState} {frame : List InputEvent} :
    (handleFrame cfg st frame).1.bufPos = 0
    ∧ (handleFrame cfg st frame).1.bufData = st.bufData
    ∧ (handleFrame cfg st frame).1.oob = st.oob := by
  unfold handleFrame
  split_ifs <;> exact ⟨rfl, rfl, rfl⟩

/-- One demux iteration preserves the buffer-safety invariant. -/
theorem demuxIter_state_inv {cfg : DemuxCfg} {st : DemuxState} {ev : InputEvent}
    (h0 : st.oob = false) (hlt : st.bufPos < st.bufData.length) :
    (demuxIter cfg st ev).1.oob = false
    ∧ (demuxIter cfg st ev).1.bufPos < (demuxIter cfg st ev).1.bufData.length
    ∧ (demuxIter cfg st ev).1.bufData.length = st.bufData.length := by
  have hpos : 0 < st.bufData.length := Nat.lt_of_le_of_lt (Nat.zero_le _) hlt
  simp only [demuxIter, if_pos hlt]
  split
  · refine ⟨?_, ?_, ?_⟩
    · rw [handleFrame_state.2.2]; exact h0
    · rw [handleFrame_state.1, handleFrame_state.2.1]; simpa using hpos
    · rw [handleFrame_state.2.1]; simp
  · split
    · exact ⟨h0, by simpa using hpos, by simp⟩
    · rename_i hsyn hle
      refine ⟨h0, ?_, by simp⟩
      simpa using Nat.lt_of_not_le hle

/-- A full demux run preserves the buffer-safety invariant: no out-of-bounds
buffer access ever happens and the write position stays below the capacity. -/
theorem demuxRun_state_inv {cfg : DemuxCfg} : ∀ (reads : List ReadResult)
    (st : DemuxState), st.oob = false → st.bufPos < st.bufData.length →
    (demuxRun cfg reads st).1.oob = false
    ∧ (demuxRun cfg reads st).1.bufPos < (demuxRun cfg reads st).1.bufData.length
    ∧ (demuxRun cfg reads st).1.bufData.length = st.bufData.length := by
  intro reads
  induction reads with
  | nil => intro st h0 hlt; exact ⟨h0, hlt, rfl⟩
  | cons r rest ih =>
    intro st h0 hlt
    cases r with
    | err e =>
      simp only [demuxRun]
      split
      · exact ⟨h0, hlt, rfl⟩
      · exact ⟨h0, hlt, rfl⟩
    | ok ev =>
      have hi := @demuxIter_state_inv cfg st ev h0 hlt
      simp only [demuxRun]
      split
      · have hr := ih (demuxIter cfg st ev).1 hi.1 hi.2.1
        exact ⟨hr.1, hr.2.1, by rw [hr.2.2, hi.2.2]⟩
      · exact hi

/-- Event-sub-device connection never emits `deviceConnected`. -/
theorem noDeclare_event (oe : String → ConnState) : ∀ subs,
    declaresConnection (connectEventSubDevices oe subs).2.2 = false := by
  intro subs
  induction subs with
  | nil => rfl
  | cons s rest ih =>
    simp only [connectEventSubDevices]
    split_ifs <;> simpa [declaresConnection] using ih

/-- Hidraw-sub-device connection never emits `deviceConnected`. -/
theorem noDeclare_hidraw (oh : String → ConnState) : ∀ subs,
    declaresConnection (connectHidrawSubDevices oh subs).2.2.2 = false := by
  intro subs
  induction subs with
  | nil => rfl
  | cons s rest ih =>
    simp only [connectHidrawSubDevices]
    split_ifs <;> simp_all [declaresConnection]

/-- `connectSubDevices` never emits `deviceConnected` itself. -/
theorem noDeclare_subs (oe oh : String → ConnState) : ∀ o,
    declaresConnection (connectSubDevices oe oh o).2.2 = false := by
  intro o
  cases o with
  | none => rfl
  | some dev =>
    have hE := noDeclare_event oe dev.subDevices
    have hH := noDeclare_hidraw oh (connectEventSubDevices oe dev.subDevices).1
    simp only [connectSubDevices]
    split_ifs <;> simp_all [declaresConnection, List.any_append]

/-- Event-sub-device connection never emits the presence notification. -/
theorem noPresence_event (oe : String → ConnState) : ∀ subs,
    ConnectEffect.presenceChangedTrue ∉ (connectEventSubDevices oe subs).2.2 := by
  intro subs
  induction subs with
  | nil => simp [connectEventSubDevices]
  | cons s rest ih =>
    simp only [connectEventSubDevices]
    split_ifs <;> simp_all

/-- Hidraw-sub-device connection never emits the presence notification. -/
theorem noPresence_hidraw (oh : String → ConnState) : ∀ subs,
    ConnectEffect.presenceChangedTrue ∉ (connectHidrawSubDevices oh subs).2.2.2 := by
  intro subs
  induction subs with
  | nil => simp [connectHidrawSubDevices]
  | cons s rest ih =>
    simp only [connectHidrawSubDevices]
    split_ifs <;> simp_all

/-- `connectSubDevices` never emits the presence notification itself. -/
theorem noPresence_subs (oe oh : String → ConnState) : ∀ o,
    ConnectEffect.presenceChangedTrue ∉ (connectSubDevices oe oh o).2.2 := by
  intro o
  cases o with
  | none => simp [connectSubDevices]
  | some dev =>
    have hE := noPresence_event oe dev.subDevices
    have hH := noPresence_hidraw oh (connectEventSubDevices oe dev.subDevices).1
    simp only [connectSubDevices]
    split_ifs <;> simp_all

/-- `connectSubDevices` on a present device yields a present device. -/
theorem connectSubDevices_some (oe oh : String → ConnState) (dev : Device) :
    ((connectSubDevices oe oh (some dev)).1).isSome = true := by
  simp only [connectSubDevices]
  split_ifs <;> rfl

/-- `connectSubDevices` reports a positive count exactly when both the event
count and the hidraw count are positive. -/
theorem connectSubDevices_pos_iff (oe oh : String → ConnState) (dev : Device) :
    0 < (connectSubDevices oe oh (some dev)).2.1 ↔
      0 < (connectEventSubDevices oe dev.subDevices).2.1
        ∧ 0 < (connectHidrawSubDevices oh (connectEventSubDevices oe dev.subDevices).1).2.1 := by
  simp only [connectSubDevices]
  split_ifs with h1 h2
  · have hnil : dev.subDevices = [] := List.length_eq_zero.mp h1
    rw [hnil]
    simp [connectEventSubDevices, connectHidrawSubDevices]
  · constructor
    · intro _; exact h2
    · intro _
      exact Int.add_pos (by exact_mod_cast h2.1) (by exact_mod_cast h2.2)
  · constructor
    · intro h; simp at h
    · intro hc; exact absurd hc h2

/-- A nonempty scan always selects some device. -/
theorem selectDevice_isSome (a : Device) (rest : List Device) (id : DeviceId)
    (md : Option Device) : (selectDevice (a :: rest) id md).isSome = true := by
  simp only [selectDevice]
  split
  · rfl
  · rfl

/-- `connectDevice` emits `deviceConnected` exactly when the scan is nonempty
and `connectSubDevices` on the selected device reports a positive count. -/
theorem declares_connectDevice_iff (oe oh : String → ConnState)
    (scan : List Device) (id : DeviceId) (md : Option Device) :
    declaresConnection (connectDevice oe oh scan id md).2.2 = true ↔
      scan ≠ [] ∧ 0 < (connectSubDevices oe oh (selectDevice scan id md)).2.1 := by
  cases scan with
  | nil => simp [connectDevice, declaresConnection]
  | cons a rest =>
    obtain ⟨dev, hsel⟩ := Option.isSome_iff_exists.mp (selectDevice_isSome a rest id md)
    have hd1 : ((connectSubDevices oe oh (selectDevice (a :: rest) id md)).1).isSome = true := by
      rw [hsel]; exact connectSubDevices_some oe oh dev
    obtain ⟨d, hd⟩ := Option.isSome_iff_exists.mp hd1
    simp only [connectDevice]
    split_ifs with hr hmd
    · constructor
      · intro _; exact ⟨by simp, hr⟩
      · intro _
        rw [hd]
        simp [declaresConnection, List.any_append]
    · constructor
      · intro _; exact ⟨by simp, hr⟩
      · intro _
        rw [hd]
        simp [declaresConnection, List.any_append]
    · constructor
      · intro h
        have h2 : declaresConnection
            (connectSubDevices oe oh (selectDevice (a :: rest) id md)).2.2 = true := h
        rw [noDeclare_subs] at h2
        exact absurd h2 (by decide)
      · intro hc; exact absurd hc.2 hr

/-- Appending sub-devices to an existing entry leaves the id list unchanged. -/
theorem appendToExisting_map_id (id : DeviceId) (subs : List SubDevice) :
    ∀ l : List Device, (appendToExisting id subs l).map Device.id = l.map Device.id := by
  intro l
  induction l with
  | nil => rfl
  | cons d rest ih =>
    simp only [appendToExisting]
    split_ifs with h
    · simp
    · simp [ih]

/-- Appending sub-devices to an existing entry preserves the list length. -/
theorem appendToExisting_length (id : DeviceId) (subs : List SubDevice) :
    ∀ l : List Device, (appendToExisting id subs l).length = l.length := by
  intro l
  induction l with
  | nil => rfl
  | cons d rest ih =>
    simp only [appendToExisting]
    split_ifs with h
    · simp
    · simp [ih]

/-- A negative `containsId` answer means no collected device has the id. -/
theorem containsId_false {id : DeviceId} : ∀ l : List Device,
    containsId id l = false → ∀ d ∈ l, d.id ≠ id := by
  intro l
  induction l with
  | nil => intro _ d hd; simp at hd
  | cons a rest ih =>
    intro h d hd
    simp only [containsId, Bool.or_eq_false_iff] at h
    rcases List.mem_cons.mp hd with rfl | hd2
    · simpa using h.1
    · exact ih h.2 d hd2

/-- One scan-loop step preserves distinctness of the collected DeviceIds. -/
theorem processEntry_nodupIds (ie : Nat → Nat → Bool) (en : Nat → Nat → String)
    (add : List SupportedDevice) {devices : List Device} (e : HidEntry)
    (h : (devices.map Device.id).Nodup) :
    ((processEntry ie en add devices e).map Device.id).Nodup := by
  simp only [processEntry]
  by_cases h1 : ¬ e.hasUEvent = true
  · rw [if_pos h1]; exact h
  rw [if_neg h1]
  by_cases h2 : (deviceOfUEvent e.uevent).id.vendorId = 0
      ∨ (deviceOfUEvent e.uevent).id.productId = 0
  · rw [if_pos h2]; exact h
  rw [if_neg h2]
  by_cases h3 : ¬ (isDeviceSupported ie (deviceOfUEvent e.uevent).id.vendorId
        (deviceOfUEvent e.uevent).id.productId = true
      ∨ isAdditionallySupported (deviceOfUEvent e.uevent).id.vendorId
        (deviceOfUEvent e.uevent).id.productId add = true)
  · rw [if_pos h3]; exact h
  rw [if_neg h3]
  by_cases h4 : containsId (deviceOfUEvent e.uevent).id devices = true
  · rw [if_pos h4, appendToExisting_map_id]; exact h
  rw [if_neg h4, List.map_append]
  refine List.Nodup.append h (List.nodup_singleton _) ?_
  intro a ha hb
  have hb2 : a = (deviceOfUEvent e.uevent).id := by simpa using hb
  subst hb2
  have hcf : containsId (deviceOfUEvent e.uevent).id devices = false := by
    simpa using h4
  obtain ⟨d, hdmem, hdid⟩ := List.mem_map.mp ha
  exact containsId_false devices hcf d hdmem hdid

/-- The scan fold preserves distinctness of the collected DeviceIds. -/
theorem scanEntries_nodupIds (ie : Nat → Nat → Bool) (en : Nat → Nat → String)
    (add : List SupportedDevice) : ∀ (entries : List HidEntry) (devices : List Device),
    (devices.map Device.id).Nodup →
    ((scanEntries ie en add entries devices).map Device.id).Nodup := by
  intro entries
  induction entries with
  | nil => intro devices h; exact h
  | cons e rest ih =>
    intro devices h
    exact ih _ (processEntry_nodupIds ie en add e h)

/-- When the uevent id is already collected, one scan-loop step creates no
new device entry. -/
theorem processEntry_length_of_contains (ie : Nat → Nat → Bool)
    (en : Nat → Nat → String) (add : List SupportedDevice)
    (devices : List Device) (e : HidEntry)
    (h : containsId (deviceOfUEvent e.uevent).id devices = true) :
    (processEntry ie en add devices e).length = devices.length := by
  simp only [processEntry]
  by_cases h1 : ¬ e.hasUEvent = true
  · rw [if_pos h1]
  rw [if_neg h1]
  by_cases h2 : (deviceOfUEvent e.uevent).id.vendorId = 0
      ∨ (deviceOfUEvent e.uevent).id.productId = 0
  · rw [if_pos h2]
  rw [if_neg h2]
  by_cases h3 : ¬ (isDeviceSupported ie (deviceOfUEvent e.uevent).id.vendorId
        (deviceOfUEvent e.uevent).id.productId = true
      ∨ isAdditionallySupported (deviceOfUEvent e.uevent).id.vendorId
        (deviceOfUEvent e.uevent).id.productId add = true)
  · rw [if_pos h3]
  rw [if_neg h3, if_pos h]
  exact appendToExisting_length _ _ devices

/-- An entry without a uevent file contributes nothing to the scan. -/
theorem processEntry_skip (ie : Nat → Nat → Bool) (en : Nat → Nat → String)
    (add : List SupportedDevice) (devices : List Device) (e : HidEntry)
    (h : e.hasUEvent = false) :
    processEntry ie en add devices e = devices := by
  simp [processEntry, h]

/-- Dropping an entry without a uevent file from anywhere in the iteration
order leaves the scan fold unchanged. -/
theorem scanEntries_middle (ie : Nat → Nat → Bool) (en : Nat → Nat → String)
    (add : List SupportedDevice) (e : HidEntry) (h : e.hasUEvent = false) :
    ∀ (pre post : List HidEntry) (devices : List Device),
    scanEntries ie en add (pre ++ e :: post) devices
      = scanEntries ie en add (pre ++ post) devices := by
  intro pre
  induction pre with
  | nil =>
    intro post devices
    simp only [List.nil_append, scanEntries, processEntry_skip ie en add devices e h]
  | cons a rest ih =>
    intro post devices
    simp only [List.cons_append, scanEntries]
    exact ih post _

/-- Every device produced by `appendToExisting` shares its id with a device
of the original list. -/
theorem appendToExisting_id_mem {id : DeviceId} {subs : List SubDevice} :
    ∀ (l : List Device) (d : Device), d ∈ appendToExisting id subs l →
    ∃ d0 ∈ l, d.id = d0.id := by
  intro l
  induction l with
  | nil => intro d hd; simp [appendToExisting] at hd
  | cons a rest ih =>
    intro d hd
    simp only [appendToExisting] at hd
    split_ifs at hd with h
    · rcases List.mem_cons.mp hd with heq | hd2
      · exact ⟨a, List.mem_cons_self a rest, by rw [heq]⟩
      · exact ⟨d, List.mem_cons_of_mem a hd2, rfl⟩
    · rcases List.mem_cons.mp hd with heq | hd2
      · exact ⟨a, List.mem_cons_self a rest, by rw [heq]⟩
      · obtain ⟨d0, hd0, hid⟩ := ih d hd2
        exact ⟨d0, List.mem_cons_of_mem a hd0, hid⟩

/-- One scan-loop step preserves the filter invariant: every collected device
has nonzero vendor and product ids allowed by a supported-device list. -/
theorem processEntry_ids (ie : Nat → Nat → Bool) (en : Nat → Nat → String)
    (add : List SupportedDevice) {devices : List Device} (e : HidEntry)
    (h : ∀ d ∈ devices, d.id.vendorId ≠ 0 ∧ d.id.productId ≠ 0
      ∧ (isDeviceSupported ie d.id.vendorId d.id.productId = true
          ∨ isAdditionallySupported d.id.vendorId d.id.productId add = true)) :
    ∀ d ∈ processEntry ie en add devices e,
      d.id.vendorId ≠ 0 ∧ d.id.productId ≠ 0
      ∧ (isDeviceSupported ie d.id.vendorId d.id.productId = true
          ∨ isAdditionallySupported d.id.vendorId d.id.productId add = true) := by
  intro d hd
  simp only [processEntry] at hd
  by_cases h1 : ¬ e.hasUEvent = true
  · rw [if_pos h1] at hd; exact h d hd
  rw [if_neg h1] at hd
  by_cases h2 : (deviceOfUEvent e.uevent).id.vendorId = 0
      ∨ (deviceOfUEvent e.uevent).id.productId = 0
  · rw [if_pos h2] at hd; exact h d hd
  rw [if_neg h2] at hd
  by_cases h3 : ¬ (isDeviceSupported ie (deviceOfUEvent e.uevent).id.vendorId
        (deviceOfUEvent e.uevent).id.productId = true
      ∨ isAdditionallySupported (deviceOfUEvent e.uevent).id.vendorId
        (deviceOfUEvent e.uevent).id.productId add = true)
  · rw [if_pos h3] at hd; exact h d hd
  rw [if_neg h3] at hd
  by_cases h4 : containsId (deviceOfUEvent e.uevent).id devices = true
  · rw [if_pos h4] at hd
    obtain ⟨d0, hd0, hid⟩ := appendToExisting_id_mem devices d hd
    rw [hid]
    exact h d0 hd0
  · rw [if_neg h4] at hd
    rcases List.mem_append.mp hd with hd2 | hd2
    · exact h d hd2
    · have hde : d = { deviceOfUEvent e.uevent with
          userName := getUserDeviceName en (deviceOfUEvent e.uevent).id.vendorId
            (deviceOfUEvent e.uevent).id.productId add,
          subDevices := entrySubDevices (deviceOfUEvent e.uevent).id e } := by
        simpa using hd2
      subst hde
      refine ⟨fun hc => h2 (Or.inl hc), fun hc => h2 (Or.inr hc), ?_⟩
      by_contra hc
      push_neg at hc
      exact h3 (by simpa using hc)

/-- The scan fold preserves the filter invariant. -/
theorem scanEntries_ids (ie : Nat → Nat → Bool) (en : Nat → Nat → String)
    (add : List SupportedDevice) : ∀ (entries : List HidEntry) (devices : List Device),
    (∀ d ∈ devices, d.id.vendorId ≠ 0 ∧ d.id.productId ≠ 0
      ∧ (isDeviceSupported ie d.id.vendorId d.id.productId = true
          ∨ isAdditionallySupported d.id.vendorId d.id.productId add = true)) →
    ∀ d ∈ scanEntries ie en add entries devices,
      d.id.vendorId ≠ 0 ∧ d.id.productId ≠ 0
      ∧ (isDeviceSupported ie d.id.vendorId d.id.productId = true
          ∨ isAdditionallySupported d.id.vendorId d.id.productId add = true) := by
  intro entries
  induction entries with
  | nil => intro devices h; exact h
  | cons e rest ih =>
    intro devices h
    exact ih _ (processEntry_ids ie en add e h)

/-! # Claim theorems -/

/-- C4: a completed frame whose first buffered record is `EV_REL` with code
`REL_X` or `REL_Y` (a motion frame) is never handed to the recorder's
`addEvents` — during any demux run, every frame passed to `addEvents` is
non-motion — and the frame handler forwards a motion frame verbatim to the
virtual device when one exists, while a non-motion frame is passed whole to
`addEvents`. -/
theorem c4_theorem : ∀ (cfg : DemuxCfg) (reads : List ReadResult) (st : DemuxState),
    (∀ f, DemuxEffect.addEvents f ∈ (demuxRun cfg reads st).2 → isMotionFrame f = false)
    ∧ (∀ frame, isMotionFrame frame = true →
        (∀ f, DemuxEffect.addEvents f ∉ (handleFrame cfg st frame).2)
        ∧ (cfg.hasVirtual = true →
            DemuxEffect.emitVirtual frame ∈ (handleFrame cfg st frame).2))
    ∧ (∀ frame, isMotionFrame frame = false →
        (handleFrame cfg st frame).2 = [DemuxEffect.addEvents frame]) := by
  intro cfg reads st
  refine ⟨fun f h => addEvents_mem_demuxRun reads st f h, ?_, ?_⟩
  · intro frame hm
    refine ⟨fun f => addEvents_not_mem_handleFrame_motion hm, fun hv => ?_⟩
    rw [handleFrame_effects_motion hm, hv]
    simp
  · intro frame hm
    exact handleFrame_effects_nonmotion hm

/-- C4 witness: the key frame delivered by `c4Reads` reaches `addEvents` and
is non-motion; the motion frame is forwarded to the virtual device; the key
frame is handed whole to `addEvents`. -/
theorem c4_witness :
    isMotionFrame c4KeyFrame = false
    ∧ DemuxEffect.emitVirtual c4MotionFrame ∈ (handleFrame demuxCfgC demuxSt0 c4MotionFrame).2
    ∧ (handleFrame demuxCfgC demuxSt0 c4KeyFrame).2 = [DemuxEffect.addEvents c4KeyFrame] :=
  ⟨(c4_theorem demuxCfgC c4Reads demuxSt0).1 c4KeyFrame (by decide),
   ((c4_theorem demuxCfgC [] demuxSt0).2.1 c4MotionFrame (by decide)).2 rfl,
   (c4_theorem demuxCfgC [] demuxSt0).2.2 c4KeyFrame (by decide)⟩

/-- C5: when the buffer fills without an `EV_SYN` marker, the demux handler
resets the recorder state and the buffer position; and for every read
stream, starting from a valid buffer state, the write index stays below the
buffer capacity at every read (the `oob` flag is never raised and the final
position is in range). -/
theorem c5_theorem : ∀ (cfg : DemuxCfg) (st : DemuxState) (ev : InputEvent)
    (reads : List ReadResult),
    (ev.type ≠ EV_SYN → st.bufData.length ≤ st.bufPos + 1 →
      (demuxIter cfg st ev).1.bufPos = 0
      ∧ (demuxIter cfg st ev).2 = [DemuxEffect.resetState])
    ∧ (st.oob = false → st.bufPos < st.bufData.length →
        (demuxRun cfg reads st).1.oob = false
        ∧ (demuxRun cfg reads st).1.bufPos < (demuxRun cfg reads st).1.bufData.length
        ∧ (demuxRun cfg reads st).1.bufData.length = st.bufData.length) := by
  intro cfg st ev reads
  constructor
  · intro hne hle
    constructor <;> (simp only [demuxIter]; split_ifs <;> simp_all)
  · intro h0 hlt
    exact demuxRun_state_inv reads st h0 hlt

/-- C5 witness: a nearly full buffer overflows on a thirteenth record without
a marker (reset effect, position zero), and thirteen markerless records fed
from the initial state leave the position in range without any out-of-bounds
access. -/
theorem c5_witness :
    ((demuxIter demuxCfgC demuxStFull ⟨1, 30, 1⟩).1.bufPos = 0
      ∧ (demuxIter demuxCfgC demuxStFull ⟨1, 30, 1⟩).2 = [DemuxEffect.resetState])
    ∧ ((demuxRun demuxCfgC c5Reads demuxSt0).1.oob = false
      ∧ (demuxRun demuxCfgC c5Reads demuxSt0).1.bufPos
          < (demuxRun demuxCfgC c5Reads demuxSt0).1.bufData.length
      ∧ (demuxRun demuxCfgC c5Reads demuxSt0).1.bufData.length
          = demuxSt0.bufData.length) :=
  ⟨(c5_theorem demuxCfgC demuxStFull ⟨1, 30, 1⟩ []).1 (by decide) (by decide),
   (c5_theorem demuxCfgC demuxSt0 ⟨0, 0, 0⟩ c5Reads).2 rfl (by decide)⟩

/-- C6: `vibrateDevice(strength)` constructs exactly the payload
`[0x10, 0x01, 0x09, 0x11, 0x03, 0xE8, s]` with `s = 64` for `strength < 64`
and `s = strength` for `strength >= 64`, and sends it to the raw-report
handle. -/
theorem c6_theorem : ∀ (strength : Nat) (m_device : Option Device) (writeResult : Int),
    vibrationData strength
      = [0x10, 0x01, 0x09, 0x11, 0x03, 0xe8, if strength < 64 then 64 else strength]
    ∧ (strength < 64 →
        vibrationData strength = [0x10, 0x01, 0x09, 0x11, 0x03, 0xe8, 64])
    ∧ (64 ≤ strength →
        vibrationData strength = [0x10, 0x01, 0x09, 0x11, 0x03, 0xe8, strength])
    ∧ (∀ dev, m_device = some dev → dev.hidrwNode ≠ 0 →
        (vibrateDevice m_device writeResult strength).2
          = [SendEffect.wrote (vibrationData strength)]) := by
  intro strength m_device writeResult
  refine ⟨rfl, ?_, ?_, ?_⟩
  · intro h; simp [vibrationData, h]
  · intro h; simp [vibrationData, Nat.not_lt.mpr h]
  · intro dev hmd hnz
    subst hmd
    simp [vibrateDevice, sendDatatoDevice, hnz]

/-- C6 witness: concrete strengths 10 (clamped to 64) and 200 (unchanged),
and the payload written on a connected device with a hidraw handle. -/
theorem c6_witness :
    vibrationData 10 = [0x10, 0x01, 0x09, 0x11, 0x03, 0xe8, 64]
    ∧ vibrationData 200 = [0x10, 0x01, 0x09, 0x11, 0x03, 0xe8, 200]
    ∧ (vibrateDevice (some c6Dev) 7 10).2 = [SendEffect.wrote (vibrationData 10)] :=
  ⟨(c6_theorem 10 (some c6Dev) 7).2.1 (by decide),
   (c6_theorem 200 none 0).2.2.1 (by decide),
   (c6_theorem 10 (some c6Dev) 7).2.2.2 c6Dev rfl (by decide)⟩

/-- C2: on a read error other than EAGAIN on a connected device's sole event
connection, the demux handler disables the notifier and defers the
sub-device teardown, but `anySpotlightDeviceConnectedChanged(false)` is
emitted zero times, not once: the guard `!anySpotlightDeviceConnected()` is
false while `m_device` is set, which is always the case for a connected
device. -/
theorem c2_theorem :
    (demuxRun demuxCfgC [ReadResult.err 5] demuxSt0).2
      = [DemuxEffect.notifierDisabled, DemuxEffect.deferredRemove "/dev/input/event0"]
    ∧ (demuxRun demuxCfgC [ReadResult.err 5] demuxSt0).1.notifierEnabled = false
    ∧ DemuxEffect.presenceChangedFalse ∉ (demuxRun demuxCfgC [ReadResult.err 5] demuxSt0).2 := by
  decide

/-- C9: `removeSubDeviceConnection` does not terminate when the device has a
sub-device list whose first entry does not match the requested device file:
the loop body never advances the iterator, so no amount of fuel reaches a
result. -/
theorem c9_theorem : ∀ fuel : Nat,
    removeSubDeviceConnection fuel (some c9Dev) "/dev/other" = none := by
  intro fuel
  have h := removeSubLoop_head_ne "/dev/other"
    ⟨"/dev/input/event1", "usb-1/input0", SubDeviceType.Event, none, true, true, false⟩
    [] (by decide) fuel
  simp [removeSubDeviceConnection, c9Dev, h]

/-- C1 counterexample: a scanned device whose single event sub-device opens
successfully (count 1, sub-device notification emitted) but which has no
hidraw node: `connectDevice` emits no `deviceConnected`, so no connection
success is declared. -/
theorem c1_counterexample :
    declaresConnection (connectDevice c1Oracle c1Oracle [c1Dev] DeviceId.default none).2.2 = false
    ∧ (connectDevice c1Oracle c1Oracle [c1Dev] DeviceId.default none).2.2
        = [ConnectEffect.openedEvent "/dev/input/event1",
           ConnectEffect.subDeviceConnected "/dev/input/event1"]
    ∧ (connectEventSubDevices c1Oracle c1Dev.subDevices).2.1 = 1 := by
  decide

/-- C3 counterexample: calling `connectDevice` with the id of the
already-connected device re-emits `deviceConnected` and reopens both the
event and the hidraw descriptors (the scanned copy replaces `m_device`), so
the call is not a no-op. -/
theorem c3_counterexample :
    declaresConnection (connectDevice c1Oracle c1Oracle [c3ScanDev] c3Id (some c3Old)).2.2 = true
    ∧ ConnectEffect.openedEvent "/dev/input/event1"
        ∈ (connectDevice c1Oracle c1Oracle [c3ScanDev] c3Id (some c3Old)).2.2
    ∧ ConnectEffect.openedHidraw "/dev/hidraw0"
        ∈ (connectDevice c1Oracle c1Oracle [c3ScanDev] c3Id (some c3Old)).2.2 := by
  decide

/-- C1 (amended): `connectDevice` declares connection success (emits
`deviceConnected`) exactly when the scan is nonempty and `connectSubDevices`
reports a positive count, and `connectSubDevices` is positive only when both
at least one event sub-device connection AND at least one hidraw sub-device
connection were opened — an event connection alone is not enough. -/
theorem c1_theorem : ∀ (oe oh : String → ConnState) (dev : Device)
    (scan : List Device) (id : DeviceId) (md : Option Device),
    (0 < (connectSubDevices oe oh (some dev)).2.1 ↔
      0 < (connectEventSubDevices oe dev.subDevices).2.1
        ∧ 0 < (connectHidrawSubDevices oh (connectEventSubDevices oe dev.subDevices).1).2.1)
    ∧ (declaresConnection (connectDevice oe oh scan id md).2.2 = true ↔
        scan ≠ [] ∧ 0 < (connectSubDevices oe oh (selectDevice scan id md)).2.1) :=
  fun oe oh dev scan id md =>
    ⟨connectSubDevices_pos_iff oe oh dev, declares_connectDevice_iff oe oh scan id md⟩

/-- C3 (amended): `connectDevice` on an already-connected id returns 0 and
does not re-emit the presence notification, but it is not a no-op: with a
nonzero preferred id that is found in the scan, the freshly scanned copy
(with null connections) replaces `m_device`, its descriptors are reopened
and `deviceConnected` is emitted again whenever the reconnect succeeds. -/
theorem c3_theorem : ∀ (oe oh : String → ConnState) (scan : List Device)
    (id : DeviceId) (md : Option Device),
    (scan ≠ [] → (connectDevice oe oh scan id md).2.1 = 0)
    ∧ (md.isSome = true →
        ConnectEffect.presenceChangedTrue ∉ (connectDevice oe oh scan id md).2.2)
    ∧ (id.vendorId ≠ 0 → id.productId ≠ 0 → ∀ d, findMatching id scan = some d →
        selectDevice scan id md = some d)
    ∧ (scan ≠ [] → 0 < (connectSubDevices oe oh (selectDevice scan id md)).2.1 →
        declaresConnection (connectDevice oe oh scan id md).2.2 = true) := by
  intro oe oh scan id md
  refine ⟨?_, ?_, ?_, ?_⟩
  · intro hne
    cases scan with
    | nil => exact absurd rfl hne
    | cons a rest =>
      simp only [connectDevice]
      split_ifs <;> rfl
  · intro hmd
    cases scan with
    | nil => simp [connectDevice]
    | cons a rest =>
      simp only [connectDevice, hmd, if_true]
      split_ifs with hr
      · intro hmem
        rcases List.mem_append.mp hmem with hx | hx
        · rcases List.mem_append.mp hx with hy | hy
          · exact noPresence_subs oe oh _ hy
          · revert hy
            split <;> simp
        · simp at hx
      · intro hmem
        exact noPresence_subs oe oh _ hmem
  · intro hv hp d hfind
    simp only [selectDevice]
    rw [if_pos ⟨hv, hp⟩, hfind]
  · intro hne hpos
    exact (declares_connectDevice_iff oe oh scan id md).mpr ⟨hne, hpos⟩

/-- C3 witness: the concrete reconnect scenario — same id already connected,
call returns 0, no presence re-emission, the scanned copy is selected, and
`deviceConnected` is emitted again. -/
theorem c3_witness :
    (connectDevice c1Oracle c1Oracle [c3ScanDev] c3Id (some c3Old)).2.1 = 0
    ∧ ConnectEffect.presenceChangedTrue
        ∉ (connectDevice c1Oracle c1Oracle [c3ScanDev] c3Id (some c3Old)).2.2
    ∧ selectDevice [c3ScanDev] c3Id (some c3Old) = some c3ScanDev
    ∧ declaresConnection (connectDevice c1Oracle c1Oracle [c3ScanDev] c3Id (some c3Old)).2.2
        = true :=
  ⟨(c3_theorem c1Oracle c1Oracle [c3ScanDev] c3Id (some c3Old)).1 (by simp),
   (c3_theorem c1Oracle c1Oracle [c3ScanDev] c3Id (some c3Old)).2.1 rfl,
   (c3_theorem c1Oracle c1Oracle [c3ScanDev] c3Id (some c3Old)).2.2.1
     (by decide) (by decide) c3ScanDev (by decide),
   (c3_theorem c1Oracle c1Oracle [c3ScanDev] c3Id (some c3Old)).2.2.2 (by simp) (by decide)⟩

/-- C7: `scanForDevices` returns exactly one Device entry per distinct
DeviceId — the id list of the result is duplicate-free — and an enumerated
HID directory whose DeviceId is already collected never creates a second
entry (the device-list length is unchanged; its sub-device nodes are
appended to the existing entry). -/
theorem c7_theorem : ∀ (isExtra : Nat → Nat → Bool) (extraName : Nat → Nat → String)
    (additional : List SupportedDevice) (fx : ScanFixture),
    (((scanForDevices isExtra extraName additional fx).devices).map Device.id).Nodup
    ∧ (∀ (devices : List Device) (e : HidEntry),
        containsId (deviceOfUEvent e.uevent).id devices = true →
        (processEntry isExtra extraName additional devices e).length = devices.length) := by
  intro ie en add fx
  constructor
  · simp only [scanForDevices]
    split_ifs
    · exact scanEntries_nodupIds ie en add fx.entries [] (by simp)
    · simp
    · simp
  · intro devices e h
    exact processEntry_length_of_contains ie en add devices e h

/-- C7 witness: two HID directories sharing one DeviceId scan to a
duplicate-free id list, and processing a duplicate-id entry against an
already-collected device list keeps the length. -/
theorem c7_witness :
    (((scanForDevices (fun _ _ => false) (fun _ _ => "") [] sFixture).devices).map
      Device.id).Nodup
    ∧ (processEntry (fun _ _ => false) (fun _ _ => "") [] sDevices sEntryHidraw).length
        = sDevices.length :=
  ⟨(c7_theorem (fun _ _ => false) (fun _ _ => "") [] sFixture).1,
   (c7_theorem (fun _ _ => false) (fun _ _ => "") [] sFixture).2 sDevices sEntryHidraw
     (by decide)⟩

/-- C8: a missing device-tree root yields an empty device list with the
descriptive missing-root message; an unlistable root yields an empty device
list with the unlistable message (no fatal failure — the function is total);
and an entry whose uevent file cannot be read only shrinks the scan: the
result equals the scan of the fixture without that entry. -/
theorem c8_theorem : ∀ (isExtra : Nat → Nat → Bool) (extraName : Nat → Nat → String)
    (additional : List SupportedDevice) (fx : ScanFixture) (re rl : Bool)
    (pre post : List HidEntry) (e : HidEntry),
    (fx.rootExists = false →
      (scanForDevices isExtra extraName additional fx).devices = []
      ∧ (scanForDevices isExtra extraName additional fx).errorMessages = [rootMissingMsg])
    ∧ (fx.rootExists = true → fx.rootListable = false →
      (scanForDevices isExtra extraName additional fx).devices = []
      ∧ (scanForDevices isExtra extraName additional fx).errorMessages
          = [rootNotListableMsg])
    ∧ (e.hasUEvent = false →
      scanForDevices isExtra extraName additional ⟨re, rl, pre ++ e :: post⟩
        = scanForDevices isExtra extraName additional ⟨re, rl, pre ++ post⟩) := by
  intro ie en add fx re rl pre post e
  refine ⟨?_, ?_, ?_⟩
  · intro h
    constructor <;> simp [scanForDevices, h]
  · intro h1 h2
    constructor <;> simp [scanForDevices, h1, h2]
  · intro h
    simp only [scanForDevices]
    split_ifs
    · rw [scanEntries_middle ie en add e h]
    · rfl
    · rfl

/-- C8 witness: a fixture with a missing root, one with an unlistable root,
and dropping an unreadable entry from a concrete fixture. -/
theorem c8_witness :
    ((scanForDevices (fun _ _ => false) (fun _ _ => "")
        [] ⟨false, true, [sEntryInput]⟩).devices = []
      ∧ (scanForDevices (fun _ _ => false) (fun _ _ => "")
          [] ⟨false, true, [sEntryInput]⟩).errorMessages = [rootMissingMsg])
    ∧ ((scanForDevices (fun _ _ => false) (fun _ _ => "")
        [] ⟨true, false, [sEntryInput]⟩).devices = []
      ∧ (scanForDevices (fun _ _ => false) (fun _ _ => "")
          [] ⟨true, false, [sEntryInput]⟩).errorMessages = [rootNotListableMsg])
    ∧ scanForDevices (fun _ _ => false) (fun _ _ => "")
          [] ⟨true, true, [sEntryInput] ++ sBadEntry :: [sEntryHidraw]⟩
        = scanForDevices (fun _ _ => false) (fun _ _ => "")
          [] ⟨true, true, [sEntryInput] ++ [sEntryHidraw]⟩ :=
  ⟨(c8_theorem (fun _ _ => false) (fun _ _ => "") [] ⟨false, true, [sEntryInput]⟩
      true true [] [] sBadEntry).1 rfl,
   (c8_theorem (fun _ _ => false) (fun _ _ => "") [] ⟨true, false, [sEntryInput]⟩
      true true [] [] sBadEntry).2.1 rfl rfl,
   (c8_theorem (fun _ _ => false) (fun _ _ => "") [] ⟨true, true, []⟩
      true true [sEntryInput] [sEntryHidraw] sBadEntry).2.2 rfl⟩

/-- C10: every Device in a scan result has nonzero vendor and product ids,
its pair is accepted by the built-in/extra or caller-supplied
supported-device lists, and consequently its id never equals the default
DeviceId (0, 0, ""). -/
theorem c10_theorem : ∀ (isExtra : Nat → Nat → Bool) (extraName : Nat → Nat → String)
    (additional : List SupportedDevice) (fx : ScanFixture) (d : Device),
    d ∈ (scanForDevices isExtra extraName additional fx).devices →
    d.id.vendorId ≠ 0 ∧ d.id.productId ≠ 0
    ∧ (isDeviceSupported isExtra d.id.vendorId d.id.productId = true
        ∨ isAdditionallySupported d.id.vendorId d.id.productId additional = true)
    ∧ d.id ≠ DeviceId.default := by
  intro ie en add fx d hd
  simp only [scanForDevices] at hd
  split_ifs at hd
  · have hg := scanEntries_ids ie en add fx.entries [] (by simp) d hd
    exact ⟨hg.1, hg.2.1, hg.2.2, fun hc => hg.1 (by rw [hc]; rfl)⟩
  · simp at hd
  · simp at hd

/-- C10 witness: the device scanned from the minimal supported fixture has
nonzero ids on the built-in list and an id distinct from the default. -/
theorem c10_witness :
    c10Dev.id.vendorId ≠ 0 ∧ c10Dev.id.productId ≠ 0
    ∧ (isDeviceSupported (fun _ _ => false) c10Dev.id.vendorId c10Dev.id.productId = true
        ∨ isAdditionallySupported c10Dev.id.vendorId c10Dev.id.productId [] = true)
    ∧ c10Dev.id ≠ DeviceId.default :=
  c10_theorem (fun _ _ => false) (fun _ _ => "") [] c10Fx c10Dev (by decide)

end Projecteur
